import Mathlib

/-!
Shallow embedding of `src/app.py` (FLT_PLANNER): a linear pipeline that
queries the SerpAPI google_flights endpoint, flattens the itineraries with
`pandas.json_normalize`, asks the Mistral chat API for a recommendation and
emails it through Mailjet SMTP.

The three remote services are modelled as oracles handed to the functions:
an HTTP response (status code, raw text, and the result of parsing the body
as JSON) for each of the two HTTP calls, and an `Except String Unit` for the
SMTP transaction (`.error e` meaning the transaction raised an exception
whose text is `e`).  Python exceptions escaping `search_flights` are
modelled by the `Except String` monad.
-/

/-! JSON values, as produced by `resp.json()`.  Arrays and objects are
mutual inductives (rather than `List`-nested) so that every function over
them is structural and computes by `rfl`.  Numbers are modelled as integers
(no claim depends on float formatting). -/

mutual

/-- A JSON value. -/
inductive Json where
  | null : Json
  | bool (b : Bool) : Json
  | num (n : Int) : Json
  | str (s : String) : Json
  | arr (elems : JsonArray) : Json
  | obj (fields : JsonObject) : Json

/-- A JSON array. -/
inductive JsonArray where
  | nil : JsonArray
  | cons (hd : Json) (tl : JsonArray) : JsonArray

/-- A JSON object: an ordered list of key-value bindings. -/
inductive JsonObject where
  | nil : JsonObject
  | cons (key : String) (val : Json) (tl : JsonObject) : JsonObject

end

/-- The elements of a JSON array, as a `List`. -/
def JsonArray.toList : JsonArray → List Json
  | .nil => []
  | .cons h t => h :: t.toList

/-- Concatenation of two JSON arrays (Python `list + list`). -/
def JsonArray.append : JsonArray → JsonArray → JsonArray
  | .nil, b => b
  | .cons h t, b => .cons h (t.append b)

/-- Build a JSON array from a `List` (sample-data sugar). -/
def JsonArray.ofList : List Json → JsonArray
  | [] => .nil
  | h :: t => .cons h (ofList t)

/-- Build a JSON object from a key-value `List` (sample-data sugar). -/
def JsonObject.ofList : List (String × Json) → JsonObject
  | [] => .nil
  | (k, v) :: t => .cons k v (ofList t)

/-- `fields[key]` on a Python dict: the binding of `key`, if any.  (Python
dict keys are unique; on duplicate constructor arguments the first binding
wins, like `dict` construction order.) -/
def JsonObject.lookup : JsonObject → String → Option Json
  | .nil, _ => none
  | .cons k v t, key => if k == key then some v else t.lookup key

/-- A flattened row of the `pandas` DataFrame: column name to cell value. -/
abbrev Row := List (String × Json)

/-- An HTTP response as seen by `requests`: `status_code`, `text`, and the
outcome of `resp.json()` (`none` when the body is not valid JSON, in which
case calling `.json()` raises). -/
structure HttpResponse where
  status_code : Nat
  text : String
  jsonBody : Option Json

/-- `isinstance(j, dict)`. -/
def Json.isDict : Json → Bool
  | .obj _ => true
  | _ => false

/-- `data.get(key, dflt)` on a Python dict: the binding of `key`, else the
default.  (Raises `AttributeError` when `data` is not a dict; callers model
that case separately.) -/
def Json.getD (data : Json) (key : String) (dflt : Json) : Json :=
  match data with
  | .obj fields => (fields.lookup key).getD dflt
  | _ => dflt

/-- A Python bool used as a number (Python `bool` is a subclass of `int`). -/
def pyBoolInt (b : Bool) : Int := if b then 1 else 0

/-- Python `+` as applied at `app.py` line 50 to two JSON-decoded values:
`list + list` concatenates, `str + str` concatenates, and numbers (bools
included, since Python `bool` is an `int`) add; every other pair of
operands raises `TypeError`. -/
def pyAdd : Json → Json → Except String Json
  | .arr a, .arr b => .ok (.arr (a.append b))
  | .str a, .str b => .ok (.str (a ++ b))
  | .num a, .num b => .ok (.num (a + b))
  | .bool a, .bool b => .ok (.num (pyBoolInt a + pyBoolInt b))
  | .bool a, .num b => .ok (.num (pyBoolInt a + b))
  | .num a, .bool b => .ok (.num (a + pyBoolInt b))
  | _, _ => .error "TypeError: unsupported operand types for +"

/-- Python truthiness of a JSON-decoded value (`if not flights` at
`app.py` line 52): empty containers, empty strings, zero and null are
falsy. -/
def Json.isTruthy : Json → Bool
  | .null => false
  | .bool b => b
  | .num n => n != 0
  | .str s => s != ""
  | .arr .nil => false
  | .arr (.cons _ _) => true
  | .obj .nil => false
  | .obj (.cons _ _ _) => true

/-- `app.py` line 50: `data.get("best_flights", []) + data.get("other_flights", [])`,
as the Python value of the sum.  `data.get` requires a dict receiver
(`AttributeError` otherwise) and `+` follows `pyAdd` — in particular two
strings or two numbers add without raising. -/
def serpFlights (data : Json) : Except String Json :=
  match data with
  | .obj fields =>
    pyAdd ((fields.lookup "best_flights").getD (Json.arr .nil))
          ((fields.lookup "other_flights").getD (Json.arr .nil))
  | _ => .error "AttributeError: json body is not a dict"

/-! `pandas.io.json._normalize.nested_to_record` with the default separator:
nested dicts are flattened into dotted column names (this is how the column
`departure_airport.id` arises from a leg `departure_airport: {id: ...}`);
non-dict values (scalars, lists) are kept as cells. -/

mutual

/-- Flatten the fields of a dict into dotted column names. -/
def flattenObj : JsonObject → List (String × Json)
  | .nil => []
  | .cons k v tl => flattenEntry k v ++ flattenObj tl

/-- One field of a dict: recurse into nested dicts, keep other values. -/
def flattenEntry (k : String) : Json → List (String × Json)
  | .obj nested => (flattenObj nested).map (fun p => (k ++ "." ++ p.1, p.2))
  | v => [(k, v)]

end

/-- One record (leg) under the record path: it must be a dict and its
nested fields are flattened into dotted column names. -/
def legRecord : Json → Except String Row
  | .obj legFields => .ok (flattenObj legFields)
  | _ => .error "AttributeError: record is not a dict"

/-- One itinerary under `json_normalize(flights, record_path=["flights"],
meta=["price"], errors="ignore")`: the records are the entries of the
`"flights"` list.  Following pandas `_pull_records` ("Path must contain
list or null"), a `null` record path yields zero records without raising,
any other non-list value raises `TypeError`, and a missing record path
raises `KeyError` even with `errors="ignore"` (which only covers meta
keys).  The itinerary-level `"price"` is paired with each record (a
missing price becomes NaN, modelled as `Json.null`, thanks to
`errors="ignore"`). -/
def normalizeItinerary (it : Json) : Except String (List (Row × Json)) :=
  match it with
  | .obj fields =>
    match fields.lookup "flights" with
    | some (.arr legs) =>
      (legs.toList.mapM legRecord).map
        (fun recs => recs.map (fun r => (r, (fields.lookup "price").getD Json.null)))
    | some .null => .ok []
    | some _ => .error "TypeError: Path must contain list or null"
    | none => .error "KeyError: flights"
  | _ => .error "AttributeError: itinerary is not a dict"

/-- `app.py` lines 56-61, `pd.json_normalize(flights, record_path=["flights"],
meta=["price"], errors="ignore")`: records of every itinerary in order, then
the meta column `"price"` is attached to each row; pandas raises
`ValueError` when the meta name collides with a record column. -/
def jsonNormalize (flights : List Json) : Except String (List Row) :=
  (flights.mapM normalizeItinerary).bind (fun recss =>
    let flat := recss.flatten
    if flat.any (fun rp => rp.1.any (fun p => p.1 == "price")) then
      .error "ValueError: Conflicting metadata name price, need distinguishing prefix"
    else
      .ok (flat.map (fun rp => rp.1 ++ [("price", rp.2)])))

/-- Rendering of a single DataFrame cell.  pandas column alignment and
numeric formatting are abstracted to a plain rendering: no claim depends on
the exact layout of the summary, only on it being a deterministic function
of the rows. -/
def cellToString : Json → String
  | .null => "NaN"
  | .bool b => if b then "True" else "False"
  | .num n => toString n
  | .str s => s
  | .arr _ => "[list]"
  | .obj _ => "[dict]"

/-- `app.py` lines 67-70, `df.to_string(columns=[...], index=False)`:
raises `KeyError` when a requested column is absent from the frame (the
frame's columns are the union of the row keys plus the meta column); cells
missing in a given row render as NaN.  Alignment/padding is abstracted to
single-space separation. -/
def dfToString (rows : List Row) (cols : List String) : Except String String :=
  if cols.all (fun c => rows.any (fun r => (r.lookup c).isSome)) then
    .ok (String.intercalate "\n"
      (String.intercalate " " cols ::
        rows.map (fun r =>
          String.intercalate " " (cols.map (fun c => cellToString ((r.lookup c).getD .null))))))
  else
    .error "KeyError: columns not in frame"

/-- The column list passed to `df.to_string` at `app.py` line 68. -/
def summaryColumns : List String :=
  ["airline", "duration", "departure_airport.id", "arrival_airport.id", "price"]

/-- Outcome of the flight-lookup stage (`app.py` lines 45-70): either one of
the three early `return (msg, "", "")` exits, or the flight summary that
feeds the remaining stages. -/
inductive LookupOutcome where
  | earlyExit (message : String) : LookupOutcome
  | summary (flight_summary : String) : LookupOutcome

/-- `app.py` lines 45-70 (steps 1-3 of `search_flights`).  The `serp`
oracle is the outcome of `requests.get` (`.error` = transport-level
exception such as a timeout, which propagates).  A 200 response whose body
is not valid JSON makes `resp.json()` raise.  Line 52's `if not flights:`
is Python truthiness of the summed value (`Json.isTruthy`); a truthy
non-list value reaching `json_normalize` raises `TypeError` there
(iterating a string yields non-subscriptable characters, and a number is
not iterable). -/
def flightLookup (serp : Except String HttpResponse) : Except String LookupOutcome := do
  let resp ← serp
  if resp.status_code ≠ 200 then
    return .earlyExit (" SerpAPI error " ++ toString resp.status_code ++ ": " ++ resp.text)
  else
    match resp.jsonBody with
    | none => throw "requests.exceptions.JSONDecodeError"
    | some data => do
      let flights ← serpFlights data
      if flights.isTruthy then
        match flights with
        | .arr its => do
          let rows ← jsonNormalize its.toList
          if rows.isEmpty then
            return .earlyExit "⚠️ Could not parse flight data."
          else do
            let flight_summary ← dfToString rows summaryColumns
            return .summary flight_summary
        | _ => throw "TypeError: json_normalize input is not a list of records"
      else
        return .earlyExit "⚠️ No flights found. Try different dates or airports."

/-- `app.py` lines 72-76: the system prompt sent to Mistral (feeds the
outbound request only). -/
def system_prompt_of (flight_summary : String) : String :=
  "You are a travel assistant. Choose the best flight based on price, duration, and number of stops.\n\n"
    ++ flight_summary

/-- `app.py` line 78. -/
def user_question : String := "Which flight is the best option and why?"

/-- `app.py` lines 94-99 (step 4): extraction of
`result["choices"][0]["message"]["content"]` from a 200 response body.  Any
shape mismatch raises (`KeyError` / `IndexError` / `TypeError`).  A
non-string content value flows through in Python; it is rendered by
`cellToString` here since the pipeline outputs are strings. -/
def extractContent (result : Json) : Except String String :=
  match result with
  | .obj fields =>
    match fields.lookup "choices" with
    | some (.arr (.cons c _)) =>
      (match c with
       | .obj cf =>
         match cf.lookup "message" with
         | some (.obj mf) =>
           match mf.lookup "content" with
           | some v => .ok (cellToString v)
           | none => .error "KeyError: content"
         | some _ => .error "TypeError: message is not a dict"
         | none => .error "KeyError: message"
       | _ => .error "TypeError: choice is not a dict")
    | some (.arr .nil) => .error "IndexError: list index out of range"
    | some _ => .error "TypeError: choices is not a list"
    | none => .error "KeyError: choices"
  | _ => .error "TypeError: result is not a dict"

/-- `app.py` lines 94-99: the recommendation string, or the descriptive
Mistral failure string on a non-200 status (no retry).  The `mistral`
oracle is the outcome of `requests.post` (`.error` = transport-level
exception, which propagates). -/
def mistralRecommendation (mistral : Except String HttpResponse) : Except String String := do
  let mresp ← mistral
  if mresp.status_code = 200 then
    match mresp.jsonBody with
    | some result => extractContent result
    | none => throw "requests.exceptions.JSONDecodeError"
  else
    return " Mistral error " ++ toString mresp.status_code ++ ": " ++ mresp.text

/-- The MIME message assembled and handed to `server.sendmail` at
`app.py` lines 18-26. -/
structure SentMail where
  sender : String
  recipient : String
  subject : String
  body : String

/-- `app.py` lines 14-30.  The `smtp` oracle is the outcome of the SMTP
connect/STARTTLS/login/sendmail transaction against the given server and
port with the environment credentials (`.error e` = some exception with
text `e` was raised inside the `try`).  The function is total: every
exception is caught and turned into the failure string, so nothing
propagates to the caller.  The first component records the message actually
handed over on success (`none` when the transaction failed). -/
def send_email (subject body to_email : String)
    (smtp_server : String) (smtp_port : Nat)
    (smtp : Except String Unit) : Option SentMail × String :=
  match smtp with
  | .ok _ =>
    (some { sender := "ssabn001@gmail.com", recipient := to_email,
            subject := subject, body := body },
     "✅ Summary sent to " ++ to_email)
  | .error e => (none, "❌ Email failed: " ++ e)

/-- `app.py` lines 32-108: the full pipeline.  Returns the triple
(flight summary, recommendation, email status) shown in the three output
boxes, or `.error` when an uncaught Python exception escapes.  The five
string arguments parametrise the outbound SerpAPI request (handled by the
`serp` oracle); `user_email` is also the recipient of the notification. -/
def search_flights (origin destination outbound_date return_date user_email : String)
    (serp mistral : Except String HttpResponse) (smtp : Except String Unit) :
    Except String (String × String × String) := do
  match ← flightLookup serp with
  | .earlyExit msg => return (msg, "", "")
  | .summary flight_summary => do
    let recommendation ← mistralRecommendation mistral
    let email_status :=
      (send_email "Your Flight Recommendation" recommendation user_email
        "in-v3.mailjet.com" 587 smtp).2
    return (flight_summary, recommendation, email_status)

/-! ### Sample data

A SerpAPI success response with two itineraries — the first with one leg,
the second with two — matching the shape documented in section 6 of the
spec, plus a successful Mistral response. -/

def sampleLeg1 : Json := .obj (.ofList
  [("departure_airport", .obj (.ofList [("name", .str "Dulles"), ("id", .str "IAD")])),
   ("arrival_airport", .obj (.ofList [("id", .str "SFO")])),
   ("duration", .num 370),
   ("airline", .str "United")])

def sampleLeg2 : Json := .obj (.ofList
  [("departure_airport", .obj (.ofList [("id", .str "IAD")])),
   ("arrival_airport", .obj (.ofList [("id", .str "DEN")])),
   ("duration", .num 210),
   ("airline", .str "Frontier")])

def sampleLeg3 : Json := .obj (.ofList
  [("departure_airport", .obj (.ofList [("id", .str "DEN")])),
   ("arrival_airport", .obj (.ofList [("id", .str "SFO")])),
   ("duration", .num 150),
   ("airline", .str "Frontier")])

def sampleItin1 : Json := .obj (.ofList
  [("flights", .arr (.ofList [sampleLeg1])), ("price", .num 320)])

def sampleItin2 : Json := .obj (.ofList
  [("flights", .arr (.ofList [sampleLeg2, sampleLeg3])), ("price", .num 250)])

def sampleData : Json := .obj (.ofList
  [("best_flights", .arr (.ofList [sampleItin1])),
   ("other_flights", .arr (.ofList [sampleItin2]))])

def sampleSerpResp : HttpResponse :=
  { status_code := 200, text := "ok", jsonBody := some sampleData }

def sampleMistralBody : Json := .obj (.ofList
  [("choices", .arr (.ofList [.obj (.ofList
     [("message", .obj (.ofList
        [("role", .str "assistant"),
         ("content", .str "Take the United nonstop.")]))])]))])

def sampleMistralResp : HttpResponse :=
  { status_code := 200, text := "ok", jsonBody := some sampleMistralBody }

/-- The flight summary the sample response produces. -/
def sampleSummary : String :=
  match flightLookup (.ok sampleSerpResp) with
  | .ok (.summary s) => s
  | _ => ""

/-! ### Derived views of the response data, and well-formedness -/

/-- The legs of an itinerary: the entries of its `"flights"` list (`[]` on
any other shape; only meaningful under `itinWf`). -/
def itinLegs (it : Json) : List Json :=
  match it with
  | .obj fields =>
    match fields.lookup "flights" with
    | some (.arr legs) => legs.toList
    | _ => []
  | _ => []

/-- The itinerary's top-level price as attached to each of its rows (NaN,
i.e. `Json.null`, when absent). -/
def itinPrice (it : Json) : Json :=
  match it with
  | .obj fields => (fields.lookup "price").getD Json.null
  | _ => Json.null

/-- The flattened record columns of a leg. -/
def legFieldsOf (leg : Json) : Row :=
  match leg with
  | .obj fs => flattenObj fs
  | _ => []

/-- The flat row one leg contributes: its flattened record plus the meta
column `"price"` carrying the parent itinerary's price. -/
def flatRow (price : Json) (leg : Json) : Row :=
  legFieldsOf leg ++ [("price", price)]

/-- Modelled from the spec's flattening contract (one flat row per leg, in
input order, carrying the parent itinerary's top-level price): the rows the
flattening step is expected to produce. -/
def specFlatRows (its : List Json) : List Row :=
  its.flatMap (fun it => (itinLegs it).map (flatRow (itinPrice it)))

/-- An itinerary `json_normalize` accepts: a dict whose `"flights"` entry
is a list of dict legs, none of which flattens to a record column named
`"price"` (such a column would collide with the meta column and make pandas
raise `ValueError`). -/
def itinWf (it : Json) : Bool :=
  match it with
  | .obj fields =>
    match fields.lookup "flights" with
    | some (.arr legs) =>
      legs.toList.all (fun leg =>
        leg.isDict && (legFieldsOf leg).all (fun p => !(p.1 == "price")))
    | _ => false
  | _ => false

/-- `t` occurs as a substring of `s`. -/
def strContains (s t : String) : Prop := ∃ a b, s = a ++ t ++ b

/-! ### Helper lemmas -/

theorem except_bind_ok {ε α β : Type} (a : α) (f : α → Except ε β) :
    (Except.ok a : Except ε α) >>= f = f a := rfl

theorem except_bind_error {ε α β : Type} (e : ε) (f : α → Except ε β) :
    (Except.error e : Except ε α) >>= f = .error e := rfl

theorem legRecord_of_dict (leg : Json) (h : leg.isDict = true) :
    legRecord leg = .ok (legFieldsOf leg) := by
  cases leg <;> first | rfl | simp [Json.isDict] at h

theorem mapM_legRecord_eq (legs : List Json)
    (h : legs.all Json.isDict = true) :
    legs.mapM legRecord = .ok (legs.map legFieldsOf) := by
  induction legs with
  | nil => rfl
  | cons hd tl ih =>
    rw [List.all_cons, Bool.and_eq_true] at h
    rw [List.mapM_cons, legRecord_of_dict hd h.1, ih h.2]
    rfl

theorem itinWf_shape (it : Json) (h : itinWf it = true) :
    ∃ fields legs, it = .obj fields ∧ fields.lookup "flights" = some (.arr legs)
      ∧ legs.toList.all (fun leg =>
          leg.isDict && (legFieldsOf leg).all (fun p => !(p.1 == "price"))) = true := by
  cases it <;> try exact Bool.noConfusion h
  rename_i fields
  have e : itinWf (.obj fields)
      = (match fields.lookup "flights" with
         | some (.arr l) => l.toList.all (fun leg =>
             leg.isDict && (legFieldsOf leg).all (fun p => !(p.1 == "price")))
         | _ => false) := rfl
  rw [e] at h
  cases hf : fields.lookup "flights" with
  | none => rw [hf] at h; exact Bool.noConfusion h
  | some v =>
    rw [hf] at h
    cases v <;> try exact Bool.noConfusion h
    rename_i legs
    exact ⟨fields, legs, rfl, hf, h⟩

theorem itinLegs_of_lookup (fields : JsonObject) (legs : JsonArray)
    (hf : fields.lookup "flights" = some (.arr legs)) :
    itinLegs (.obj fields) = legs.toList := by
  have e : itinLegs (.obj fields)
      = (match fields.lookup "flights" with
         | some (.arr l) => l.toList
         | _ => []) := rfl
  rw [e, hf]

theorem itinWf_legs (it : Json) (h : itinWf it = true) :
    ∀ leg ∈ itinLegs it,
      leg.isDict = true ∧ (legFieldsOf leg).all (fun p => !(p.1 == "price")) = true := by
  obtain ⟨fields, legs, rfl, hf, hall⟩ := itinWf_shape it h
  rw [itinLegs_of_lookup fields legs hf]
  intro leg hm
  have hx := (List.all_eq_true.mp hall) leg hm
  rw [Bool.and_eq_true] at hx
  exact hx

theorem normalizeItinerary_of_wf (it : Json) (h : itinWf it = true) :
    normalizeItinerary it
      = .ok ((itinLegs it).map (fun leg => (legFieldsOf leg, itinPrice it))) := by
  obtain ⟨fields, legs, rfl, hf, hall⟩ := itinWf_shape it h
  have hdict : legs.toList.all Json.isDict = true := by
    rw [List.all_eq_true] at hall ⊢
    intro leg hm
    have hx := hall leg hm
    rw [Bool.and_eq_true] at hx
    exact hx.1
  have eprice : itinPrice (.obj fields) = (fields.lookup "price").getD Json.null := rfl
  have enorm : normalizeItinerary (.obj fields)
      = (legs.toList.mapM legRecord).map
          (fun recs => recs.map (fun r => (r, (fields.lookup "price").getD Json.null))) := by
    have e : normalizeItinerary (.obj fields)
        = (match fields.lookup "flights" with
           | some (.arr l) =>
             (l.toList.mapM legRecord).map
               (fun recs => recs.map (fun r => (r, (fields.lookup "price").getD Json.null)))
           | some .null => .ok []
           | some _ => .error "TypeError: Path must contain list or null"
           | none => .error "KeyError: flights") := rfl
    rw [e, hf]
  rw [enorm, mapM_legRecord_eq _ hdict, itinLegs_of_lookup fields legs hf, eprice]
  simp [Except.map, List.map_map]

theorem exceptBind_ok {ε α β : Type} (a : α) (f : α → Except ε β) :
    (Except.ok a : Except ε α).bind f = f a := rfl

theorem JsonArray.toList_append : ∀ (a b : JsonArray),
    (a.append b).toList = a.toList ++ b.toList
  | .nil, _ => rfl
  | .cons h t, b => by
    show h :: (t.append b).toList = h :: (t.toList ++ b.toList)
    rw [toList_append t b]

theorem mapM_normalizeItinerary_of_wf (its : List Json) (h : its.all itinWf = true) :
    its.mapM normalizeItinerary
      = .ok (its.map (fun it =>
          (itinLegs it).map (fun leg => (legFieldsOf leg, itinPrice it)))) := by
  induction its with
  | nil => rfl
  | cons hd tl ih =>
    rw [List.all_cons, Bool.and_eq_true] at h
    rw [List.mapM_cons, normalizeItinerary_of_wf hd h.1, ih h.2]
    rfl

theorem jsonNormalize_of_wf (its : List Json) (h : its.all itinWf = true) :
    jsonNormalize its = .ok (specFlatRows its) := by
  unfold jsonNormalize
  rw [mapM_normalizeItinerary_of_wf its h]
  simp only [exceptBind_ok]
  have hany : ((its.map (fun it =>
      (itinLegs it).map (fun leg => (legFieldsOf leg, itinPrice it)))).flatten).any
        (fun rp => rp.1.any (fun p => p.1 == "price")) = false := by
    rw [List.any_eq_false]
    intro rp hrp
    rw [List.mem_flatten] at hrp
    obtain ⟨l, hl, hrpl⟩ := hrp
    rw [List.mem_map] at hl
    obtain ⟨it, hit, rfl⟩ := hl
    rw [List.mem_map] at hrpl
    obtain ⟨leg, hleg, rfl⟩ := hrpl
    have hw := itinWf_legs it ((List.all_eq_true.mp h) it hit) leg hleg
    have hall := hw.2
    rw [List.all_eq_true] at hall
    simp only [List.any_eq_true, not_exists, not_and]
    intro p hp
    have hx := hall p hp
    simp only [Bool.not_eq_true'] at hx
    simp [hx]
  simp only [hany]
  simp [specFlatRows, List.flatMap_def, List.map_flatten, List.map_map, Function.comp, flatRow]
  refine congrArg List.flatten (List.map_congr_left ?_)
  intro it hit
  simp [Function.comp, List.map_map, flatRow]

theorem lookup_price_append (l : Row) (v : Json)
    (h : l.all (fun p => !(p.1 == "price")) = true) :
    (l ++ [("price", v)]).lookup "price" = some v := by
  induction l with
  | nil => rfl
  | cons hd tl ih =>
    rw [List.all_cons, Bool.and_eq_true] at h
    obtain ⟨h1, h2⟩ := h
    obtain ⟨k, val⟩ := hd
    rw [List.cons_append, List.lookup_cons]
    have hk : ("price" == k) = false := by
      have h1x : (k == "price") = false := by simpa using h1
      rw [beq_eq_false_iff_ne] at h1x ⊢
      exact fun e => h1x e.symm
    rw [hk]
    exact ih h2

/-- **C1**: for a success-response itinerary list whose itineraries are
well-formed records, each with at least one leg, the flattening step
(`pd.json_normalize`, `app.py` lines 56-61) produces exactly one flat row
per leg, in stable input order (`specFlatRows` enumerates the itineraries
in order and each itinerary's legs in order); the total row count equals
the total leg count across itineraries, and every row's `"price"` cell is
its parent itinerary's top-level price. -/
theorem flatten_one_row_per_leg (its : List Json)
    (hwf : its.all itinWf = true)
    (hne : its.all (fun it => !(itinLegs it).isEmpty) = true) :
    jsonNormalize its = .ok (specFlatRows its)
    ∧ (specFlatRows its).length = (its.map (fun it => (itinLegs it).length)).sum
    ∧ ∀ it ∈ its, ∀ leg ∈ itinLegs it,
        (flatRow (itinPrice it) leg).lookup "price" = some (itinPrice it) := by
  refine ⟨jsonNormalize_of_wf its hwf, ?_, ?_⟩
  · simp only [specFlatRows, List.flatMap_def, List.length_flatten, List.map_map]
    refine congrArg List.sum (List.map_congr_left ?_)
    intro it hit
    simp [Function.comp]
  · intro it hit leg hleg
    have hw := itinWf_legs it ((List.all_eq_true.mp hwf) it hit) leg hleg
    exact lookup_price_append _ _ hw.2

/-- Witness for C1 at the sample response: two well-formed itineraries
with 1 and 2 legs flatten to exactly 3 rows. -/
theorem flatten_one_row_per_leg_witness :
    [sampleItin1, sampleItin2].all itinWf = true
    ∧ [sampleItin1, sampleItin2].all (fun it => !(itinLegs it).isEmpty) = true
    ∧ (jsonNormalize [sampleItin1, sampleItin2] = .ok (specFlatRows [sampleItin1, sampleItin2])
       ∧ (specFlatRows [sampleItin1, sampleItin2]).length
           = ([sampleItin1, sampleItin2].map (fun it => (itinLegs it).length)).sum
       ∧ ∀ it ∈ [sampleItin1, sampleItin2], ∀ leg ∈ itinLegs it,
           (flatRow (itinPrice it) leg).lookup "price" = some (itinPrice it))
    ∧ (specFlatRows [sampleItin1, sampleItin2]).length = 3 :=
  ⟨rfl, rfl, flatten_one_row_per_leg [sampleItin1, sampleItin2] rfl rfl, rfl⟩

/-! ### Unfolding equations for the pipeline stages -/

theorem flightLookup_transport_error (e : String) :
    flightLookup (.error e) = .error e := rfl

theorem mistralRecommendation_transport_error (e : String) :
    mistralRecommendation (.error e) = .error e := rfl

theorem flightLookup_ok (resp : HttpResponse) :
    flightLookup (.ok resp)
      = if resp.status_code ≠ 200 then
          .ok (.earlyExit (" SerpAPI error " ++ toString resp.status_code ++ ": " ++ resp.text))
        else
          match resp.jsonBody with
          | none => .error "requests.exceptions.JSONDecodeError"
          | some data =>
            (serpFlights data).bind (fun flights =>
              if flights.isTruthy then
                match flights with
                | .arr its =>
                  (jsonNormalize its.toList).bind (fun rows =>
                    if rows.isEmpty then
                      .ok (.earlyExit "⚠️ Could not parse flight data.")
                    else
                      (dfToString rows summaryColumns).bind
                        (fun flight_summary => .ok (.summary flight_summary)))
                | _ => .error "TypeError: json_normalize input is not a list of records"
              else
                .ok (.earlyExit "⚠️ No flights found. Try different dates or airports.")) := rfl

theorem flightLookup_err (resp : HttpResponse) (h : resp.status_code ≠ 200) :
    flightLookup (.ok resp)
      = .ok (.earlyExit (" SerpAPI error " ++ toString resp.status_code ++ ": " ++ resp.text)) := by
  rw [flightLookup_ok, if_pos h]

theorem flightLookup_200 (resp : HttpResponse) (data : Json)
    (h200 : resp.status_code = 200) (hjson : resp.jsonBody = some data) :
    flightLookup (.ok resp)
      = (serpFlights data).bind (fun flights =>
          if flights.isTruthy then
            match flights with
            | .arr its =>
              (jsonNormalize its.toList).bind (fun rows =>
                if rows.isEmpty then
                  .ok (.earlyExit "⚠️ Could not parse flight data.")
                else
                  (dfToString rows summaryColumns).bind
                    (fun flight_summary => .ok (.summary flight_summary)))
            | _ => .error "TypeError: json_normalize input is not a list of records"
          else
            .ok (.earlyExit "⚠️ No flights found. Try different dates or airports.")) := by
  rw [flightLookup_ok, if_neg (by simp [h200]), hjson]

theorem mistralRecommendation_ok (mresp : HttpResponse) :
    mistralRecommendation (.ok mresp)
      = if mresp.status_code = 200 then
          match mresp.jsonBody with
          | some result => extractContent result
          | none => .error "requests.exceptions.JSONDecodeError"
        else
          .ok (" Mistral error " ++ toString mresp.status_code ++ ": " ++ mresp.text) := rfl

theorem flightLookup_arr (resp : HttpResponse) (data : Json) (its : JsonArray)
    (h200 : resp.status_code = 200) (hjson : resp.jsonBody = some data)
    (hfl : serpFlights data = .ok (.arr its))
    (hts : Json.isTruthy (.arr its) = true) :
    flightLookup (.ok resp)
      = (jsonNormalize its.toList).bind (fun rows =>
          if rows.isEmpty then
            .ok (.earlyExit "⚠️ Could not parse flight data.")
          else
            (dfToString rows summaryColumns).bind
              (fun flight_summary => .ok (.summary flight_summary))) := by
  rw [flightLookup_200 resp data h200 hjson, hfl]
  simp only [exceptBind_ok]
  rw [if_pos hts]

theorem search_flights_eq
    (origin destination outbound_date return_date user_email : String)
    (serp mistral : Except String HttpResponse) (smtp : Except String Unit) :
    search_flights origin destination outbound_date return_date user_email serp mistral smtp
      = (flightLookup serp).bind (fun lo =>
          match lo with
          | .earlyExit msg => .ok (msg, "", "")
          | .summary flight_summary =>
            (mistralRecommendation mistral).bind (fun recommendation =>
              .ok (flight_summary, recommendation,
                (send_email "Your Flight Recommendation" recommendation user_email
                  "in-v3.mailjet.com" 587 smtp).2))) := rfl

/-- An itinerary whose record path is `null`: pandas `_pull_records`
yields zero records for it without raising. -/
def nullRecordItin : Json := .obj (.ofList [("flights", Json.null)])

/-- **C2**: on a 200 response where the summed collections are falsy
(Python `not flights`, which covers the empty concatenated itinerary
sequence), or where the sum is a list whose flattening yields zero rows
(for instance every itinerary carries a null record path), `search_flights`
returns the matching distinct message with empty recommendation and
email-status outputs; the result does not depend on the `mistral` and
`smtp` oracles (they are universally quantified and absent from the
right-hand side), so neither the language-model stage nor the SMTP stage
executes. -/
theorem empty_results_short_circuit
    (origin destination outbound_date return_date user_email : String)
    (resp : HttpResponse) (data flights : Json)
    (h200 : resp.status_code = 200) (hjson : resp.jsonBody = some data)
    (hfl : serpFlights data = .ok flights)
    (hempty : flights.isTruthy = false
      ∨ ∃ its, flights = .arr its ∧ jsonNormalize its.toList = .ok [])
    (mistral : Except String HttpResponse) (smtp : Except String Unit) :
    search_flights origin destination outbound_date return_date user_email
        (.ok resp) mistral smtp
      = .ok ((if flights.isTruthy then "⚠️ Could not parse flight data."
              else "⚠️ No flights found. Try different dates or airports."), "", "") := by
  rw [search_flights_eq]
  by_cases ht : flights.isTruthy = true
  · obtain ⟨its, rfl, hrows⟩ := hempty.resolve_left (by simp [ht])
    rw [flightLookup_arr resp data its h200 hjson hfl ht, hrows, ht]
    rfl
  · rw [Bool.not_eq_true] at ht
    rw [flightLookup_200 resp data h200 hjson, hfl]
    simp only [exceptBind_ok]
    rw [ht]
    rfl

/-- Witness for C2, one run per branch: a 200 response whose single
itinerary has a null record path flattens to zero rows and yields the
unparseable message, and a 200 response binding both collections to empty
strings sums (Python `str + str`) to a falsy value and yields the
no-flights message; in both runs the model and SMTP oracles would fail if
they were consulted. -/
theorem empty_results_short_circuit_witness :
    serpFlights (.obj (.cons "best_flights" (.arr (.cons nullRecordItin .nil)) .nil))
      = .ok (.arr (.cons nullRecordItin .nil))
    ∧ jsonNormalize [nullRecordItin] = .ok []
    ∧ search_flights "IAD" "SFO" "2026-01-01" "2026-01-08" "bob@example.com"
        (.ok { status_code := 200, text := "ok",
               jsonBody := some (.obj (.cons "best_flights"
                 (.arr (.cons nullRecordItin .nil)) .nil)) })
        (.error "mistral not called") (.error "smtp not called")
      = .ok ("⚠️ Could not parse flight data.", "", "")
    ∧ serpFlights (.obj (.ofList [("best_flights", .str ""), ("other_flights", .str "")]))
      = .ok (.str "")
    ∧ search_flights "IAD" "SFO" "2026-01-01" "2026-01-08" "bob@example.com"
        (.ok { status_code := 200, text := "ok",
               jsonBody := some (.obj (.ofList
                 [("best_flights", .str ""), ("other_flights", .str "")])) })
        (.error "mistral not called") (.error "smtp not called")
      = .ok ("⚠️ No flights found. Try different dates or airports.", "", "") :=
  ⟨rfl, rfl,
    empty_results_short_circuit "IAD" "SFO" "2026-01-01" "2026-01-08" "bob@example.com"
      { status_code := 200, text := "ok",
        jsonBody := some (.obj (.cons "best_flights"
          (.arr (.cons nullRecordItin .nil)) .nil)) }
      (.obj (.cons "best_flights" (.arr (.cons nullRecordItin .nil)) .nil))
      (.arr (.cons nullRecordItin .nil)) rfl rfl rfl
      (Or.inr ⟨.cons nullRecordItin .nil, rfl, rfl⟩)
      (.error "mistral not called") (.error "smtp not called"),
    rfl,
    empty_results_short_circuit "IAD" "SFO" "2026-01-01" "2026-01-08" "bob@example.com"
      { status_code := 200, text := "ok",
        jsonBody := some (.obj (.ofList
          [("best_flights", .str ""), ("other_flights", .str "")])) }
      (.obj (.ofList [("best_flights", .str ""), ("other_flights", .str "")]))
      (.str "") rfl rfl rfl (Or.inl rfl)
      (.error "mistral not called") (.error "smtp not called")⟩

/-- **C3**: on a non-200 SerpAPI response, `search_flights` returns the
failure message built from the status code and the raw body, with empty
recommendation and email-status outputs; the message contains both the
status code and the body, and the result does not depend on the `mistral`
and `smtp` oracles (no downstream stage executes, and the single consumed
response reflects that no retry is issued). -/
theorem serp_error_reported
    (origin destination outbound_date return_date user_email : String)
    (resp : HttpResponse) (hne : resp.status_code ≠ 200)
    (mistral : Except String HttpResponse) (smtp : Except String Unit) :
    search_flights origin destination outbound_date return_date user_email
        (.ok resp) mistral smtp
      = .ok (" SerpAPI error " ++ toString resp.status_code ++ ": " ++ resp.text, "", "")
    ∧ strContains (" SerpAPI error " ++ toString resp.status_code ++ ": " ++ resp.text)
        (toString resp.status_code)
    ∧ strContains (" SerpAPI error " ++ toString resp.status_code ++ ": " ++ resp.text)
        resp.text := by
  refine ⟨?_, ⟨" SerpAPI error ", ": " ++ resp.text, by simp [String.append_assoc]⟩,
    ⟨" SerpAPI error " ++ toString resp.status_code ++ ": ", "",
      by simp [String.append_assoc, String.append_empty]⟩⟩
  rw [search_flights_eq, flightLookup_err resp hne]
  rfl

/-- Witness for C3: a 429 response with body "rate limited". -/
theorem serp_error_reported_witness :
    (429 : Nat) ≠ 200
    ∧ (search_flights "IAD" "SFO" "2026-01-01" "2026-01-08" "bob@example.com"
        (.ok { status_code := 429, text := "rate limited", jsonBody := none })
        (.error "mistral not called") (.error "smtp not called")
      = .ok (" SerpAPI error 429: rate limited", "", "")
      ∧ strContains " SerpAPI error 429: rate limited" "429"
      ∧ strContains " SerpAPI error 429: rate limited" "rate limited") :=
  ⟨by decide,
    serp_error_reported "IAD" "SFO" "2026-01-01" "2026-01-08" "bob@example.com"
      { status_code := 429, text := "rate limited", jsonBody := none } (by decide)
      (.error "mistral not called") (.error "smtp not called")⟩

/-- **C4**: on a non-200 Mistral response the recommendation output is the
descriptive failure string built from the status code and body (containing
both), no retry occurs (a single response is consumed), and exactly this
failure string is handed to the notification stage as the email body, as a
successful recommendation would be. -/
theorem mistral_error_forwarded
    (origin destination outbound_date return_date user_email flight_summary : String)
    (serp : Except String HttpResponse) (mresp : HttpResponse)
    (hs : flightLookup serp = .ok (.summary flight_summary))
    (hne : mresp.status_code ≠ 200) (smtp : Except String Unit) :
    search_flights origin destination outbound_date return_date user_email
        serp (.ok mresp) smtp
      = .ok (flight_summary,
             " Mistral error " ++ toString mresp.status_code ++ ": " ++ mresp.text,
             (send_email "Your Flight Recommendation"
                (" Mistral error " ++ toString mresp.status_code ++ ": " ++ mresp.text)
                user_email "in-v3.mailjet.com" 587 smtp).2)
    ∧ strContains (" Mistral error " ++ toString mresp.status_code ++ ": " ++ mresp.text)
        (toString mresp.status_code)
    ∧ strContains (" Mistral error " ++ toString mresp.status_code ++ ": " ++ mresp.text)
        mresp.text
    ∧ (send_email "Your Flight Recommendation"
         (" Mistral error " ++ toString mresp.status_code ++ ": " ++ mresp.text)
         user_email "in-v3.mailjet.com" 587 (.ok ())).1
       = some { sender := "ssabn001@gmail.com", recipient := user_email,
                subject := "Your Flight Recommendation",
                body := " Mistral error " ++ toString mresp.status_code ++ ": " ++ mresp.text } := by
  refine ⟨?_, ⟨" Mistral error ", ": " ++ mresp.text, by simp [String.append_assoc]⟩,
    ⟨" Mistral error " ++ toString mresp.status_code ++ ": ", "",
      by simp [String.append_assoc, String.append_empty]⟩, rfl⟩
  rw [search_flights_eq, hs, exceptBind_ok, mistralRecommendation_ok, if_neg hne]
  rfl

/-- Witness for C4: a 500 Mistral response with body "server error" after
the sample flight lookup. -/
theorem mistral_error_forwarded_witness :
    flightLookup (.ok sampleSerpResp) = .ok (.summary sampleSummary)
    ∧ (500 : Nat) ≠ 200
    ∧ (search_flights "IAD" "SFO" "2026-01-01" "2026-01-08" "bob@example.com"
        (.ok sampleSerpResp)
        (.ok { status_code := 500, text := "server error", jsonBody := none }) (.ok ())
      = .ok (sampleSummary, " Mistral error 500: server error",
             "✅ Summary sent to bob@example.com")
      ∧ strContains " Mistral error 500: server error" "500"
      ∧ strContains " Mistral error 500: server error" "server error"
      ∧ (send_email "Your Flight Recommendation" " Mistral error 500: server error"
          "bob@example.com" "in-v3.mailjet.com" 587 (.ok ())).1
        = some { sender := "ssabn001@gmail.com", recipient := "bob@example.com",
                 subject := "Your Flight Recommendation",
                 body := " Mistral error 500: server error" }) :=
  ⟨rfl, by decide,
    mistral_error_forwarded "IAD" "SFO" "2026-01-01" "2026-01-08" "bob@example.com"
      sampleSummary (.ok sampleSerpResp)
      { status_code := 500, text := "server error", jsonBody := none }
      rfl (by decide) (.ok ())⟩

/-- **C5**: every exception in the SMTP transaction is caught by
`send_email`, which returns the failure string containing the exception
text and never propagates (it is a total function into the status pair);
after a successful lookup and model call the flight-summary and
recommendation outputs keep their computed values. -/
theorem smtp_exception_contained
    (origin destination outbound_date return_date user_email flight_summary
      recommendation e : String)
    (serp mistral : Except String HttpResponse)
    (hs : flightLookup serp = .ok (.summary flight_summary))
    (hr : mistralRecommendation mistral = .ok recommendation) :
    (∀ subject body to_email smtp_server smtp_port,
       send_email subject body to_email smtp_server smtp_port (.error e)
         = (none, "❌ Email failed: " ++ e))
    ∧ search_flights origin destination outbound_date return_date user_email
        serp mistral (.error e)
      = .ok (flight_summary, recommendation, "❌ Email failed: " ++ e)
    ∧ strContains ("❌ Email failed: " ++ e) e := by
  refine ⟨fun _ _ _ _ _ => rfl, ?_, ⟨"❌ Email failed: ", "", by simp [String.append_empty]⟩⟩
  rw [search_flights_eq, hs, exceptBind_ok, hr]
  rfl

/-- Witness for C5: an SMTP authentication exception after the sample
lookup and model call. -/
theorem smtp_exception_contained_witness :
    flightLookup (.ok sampleSerpResp) = .ok (.summary sampleSummary)
    ∧ mistralRecommendation (.ok sampleMistralResp) = .ok "Take the United nonstop."
    ∧ (send_email "Your Flight Recommendation" "Take the United nonstop." "bob@example.com"
        "in-v3.mailjet.com" 587 (.error "SMTPAuthenticationError: invalid credentials")
      = (none, "❌ Email failed: SMTPAuthenticationError: invalid credentials")
      ∧ search_flights "IAD" "SFO" "2026-01-01" "2026-01-08" "bob@example.com"
          (.ok sampleSerpResp) (.ok sampleMistralResp)
          (.error "SMTPAuthenticationError: invalid credentials")
        = .ok (sampleSummary, "Take the United nonstop.",
               "❌ Email failed: SMTPAuthenticationError: invalid credentials")
      ∧ strContains "❌ Email failed: SMTPAuthenticationError: invalid credentials"
          "SMTPAuthenticationError: invalid credentials") := by
  have h := smtp_exception_contained "IAD" "SFO" "2026-01-01" "2026-01-08" "bob@example.com"
    sampleSummary "Take the United nonstop." "SMTPAuthenticationError: invalid credentials"
    (.ok sampleSerpResp) (.ok sampleMistralResp) rfl rfl
  exact ⟨rfl, rfl,
    h.1 "Your Flight Recommendation" "Take the United nonstop." "bob@example.com"
      "in-v3.mailjet.com" 587,
    h.2.1, h.2.2⟩

/-- **C6**: on a success response the itinerary sequence is built by
concatenating the "best_flights" collection and then the "other_flights"
collection, each in its original order: the sum is the array
`best.append other`, whose element sequence is the element sequence of
"best" followed by that of "other". -/
theorem best_then_other (fields : JsonObject) (best other : JsonArray)
    (hb : fields.lookup "best_flights" = some (.arr best))
    (ho : fields.lookup "other_flights" = some (.arr other)) :
    serpFlights (.obj fields) = .ok (.arr (best.append other))
    ∧ (best.append other).toList = best.toList ++ other.toList := by
  refine ⟨?_, JsonArray.toList_append best other⟩
  have e : serpFlights (.obj fields)
      = pyAdd ((fields.lookup "best_flights").getD (Json.arr .nil))
              ((fields.lookup "other_flights").getD (Json.arr .nil)) := rfl
  rw [e, hb, ho]
  rfl

/-- Witness for C6: the sample response concatenates its single best
itinerary with its single other itinerary, in order. -/
theorem best_then_other_witness :
    (JsonObject.ofList
        [("best_flights", .arr (.ofList [sampleItin1])),
         ("other_flights", .arr (.ofList [sampleItin2]))]).lookup "best_flights"
      = some (.arr (.ofList [sampleItin1]))
    ∧ serpFlights sampleData = .ok (.arr (.ofList [sampleItin1, sampleItin2]))
    ∧ ((JsonArray.ofList [sampleItin1]).append (.ofList [sampleItin2])).toList
      = [sampleItin1, sampleItin2] :=
  ⟨rfl,
    (best_then_other
      (JsonObject.ofList
        [("best_flights", .arr (.ofList [sampleItin1])),
         ("other_flights", .arr (.ofList [sampleItin2]))])
      (.ofList [sampleItin1]) (.ofList [sampleItin2]) rfl rfl).1,
    (best_then_other
      (JsonObject.ofList
        [("best_flights", .arr (.ofList [sampleItin1])),
         ("other_flights", .arr (.ofList [sampleItin2]))])
      (.ofList [sampleItin1]) (.ofList [sampleItin2]) rfl rfl).2⟩

/-- **C7**: whatever the SMTP outcome, the notification stage is invoked
with the fixed subject "Your Flight Recommendation"; the message is sent
from the fixed sender, and when the transaction completes without error the
returned confirmation names the recipient. -/
theorem notification_fixed_subject_sender
    (origin destination outbound_date return_date user_email flight_summary
      recommendation : String)
    (serp mistral : Except String HttpResponse)
    (hs : flightLookup serp = .ok (.summary flight_summary))
    (hr : mistralRecommendation mistral = .ok recommendation) :
    (∀ smtp, search_flights origin destination outbound_date return_date user_email
        serp mistral smtp
      = .ok (flight_summary, recommendation,
          (send_email "Your Flight Recommendation" recommendation user_email
            "in-v3.mailjet.com" 587 smtp).2))
    ∧ (send_email "Your Flight Recommendation" recommendation user_email
        "in-v3.mailjet.com" 587 (.ok ())).1
      = some { sender := "ssabn001@gmail.com", recipient := user_email,
               subject := "Your Flight Recommendation", body := recommendation }
    ∧ (send_email "Your Flight Recommendation" recommendation user_email
        "in-v3.mailjet.com" 587 (.ok ())).2
      = "✅ Summary sent to " ++ user_email
    ∧ strContains ("✅ Summary sent to " ++ user_email) user_email := by
  refine ⟨?_, rfl, rfl, ⟨"✅ Summary sent to ", "", by simp [String.append_empty]⟩⟩
  intro smtp
  rw [search_flights_eq, hs, exceptBind_ok, hr]
  rfl

/-- Witness for C7: the sample run delivers with the fixed subject and
sender and confirms to the recipient. -/
theorem notification_fixed_subject_sender_witness :
    flightLookup (.ok sampleSerpResp) = .ok (.summary sampleSummary)
    ∧ mistralRecommendation (.ok sampleMistralResp) = .ok "Take the United nonstop."
    ∧ search_flights "IAD" "SFO" "2026-01-01" "2026-01-08" "bob@example.com"
        (.ok sampleSerpResp) (.ok sampleMistralResp) (.ok ())
      = .ok (sampleSummary, "Take the United nonstop.", "✅ Summary sent to bob@example.com")
    ∧ (send_email "Your Flight Recommendation" "Take the United nonstop." "bob@example.com"
        "in-v3.mailjet.com" 587 (.ok ())).1
      = some { sender := "ssabn001@gmail.com", recipient := "bob@example.com",
               subject := "Your Flight Recommendation", body := "Take the United nonstop." } := by
  have h := notification_fixed_subject_sender "IAD" "SFO" "2026-01-01" "2026-01-08"
    "bob@example.com" sampleSummary "Take the United nonstop."
    (.ok sampleSerpResp) (.ok sampleMistralResp) rfl rfl
  exact ⟨rfl, rfl, h.1 (.ok ()), h.2.1⟩

/-- **C8**: when `"best_flights"` or `"other_flights"` is absent from a
success body, `search_flights` behaves exactly as if the key were present
with an empty array: the run on the original body equals the run on the
body extended with that key bound to `[]`, for every status, body text and
downstream oracle; in particular the missing key itself causes no failure. -/
theorem missing_collection_defaults_empty
    (origin destination outbound_date return_date user_email : String)
    (code : Nat) (t : String) (fields : JsonObject) (key : String)
    (hkey : key = "best_flights" ∨ key = "other_flights")
    (habs : fields.lookup key = none)
    (mistral : Except String HttpResponse) (smtp : Except String Unit) :
    search_flights origin destination outbound_date return_date user_email
        (.ok { status_code := code, text := t, jsonBody := some (.obj fields) })
        mistral smtp
      = search_flights origin destination outbound_date return_date user_email
          (.ok { status_code := code, text := t,
                 jsonBody := some (.obj (.cons key (.arr .nil) fields)) })
          mistral smtp := by
  have e : serpFlights (.obj fields)
      = pyAdd ((fields.lookup "best_flights").getD (Json.arr .nil))
              ((fields.lookup "other_flights").getD (Json.arr .nil)) := rfl
  have hserp : serpFlights (.obj fields)
      = serpFlights (.obj (.cons key (.arr .nil) fields)) := by
    rcases hkey with rfl | rfl
    · rw [e, habs]
      rfl
    · rw [e, habs]
      rfl
  rw [search_flights_eq, search_flights_eq]
  by_cases hc : code = 200
  · rw [flightLookup_200 _ (.obj fields) hc rfl,
        flightLookup_200 _ (.obj (.cons key (.arr .nil) fields)) hc rfl, hserp]
  · rw [flightLookup_err _ hc, flightLookup_err _ hc]

/-- Witness for C8: a body with only "other_flights" behaves like the same
body with "best_flights" added as an empty array. -/
theorem missing_collection_defaults_empty_witness :
    (JsonObject.ofList [("other_flights", .arr (.ofList [sampleItin2]))]).lookup
        "best_flights" = none
    ∧ search_flights "IAD" "SFO" "2026-01-01" "2026-01-08" "bob@example.com"
        (.ok { status_code := 200, text := "ok",
               jsonBody := some (.obj (.ofList [("other_flights", .arr (.ofList [sampleItin2]))])) })
        (.ok sampleMistralResp) (.ok ())
      = search_flights "IAD" "SFO" "2026-01-01" "2026-01-08" "bob@example.com"
          (.ok { status_code := 200, text := "ok",
                 jsonBody := some (.obj (.cons "best_flights" (.arr .nil)
                   (.ofList [("other_flights", .arr (.ofList [sampleItin2]))]))) })
          (.ok sampleMistralResp) (.ok ()) :=
  ⟨rfl,
    missing_collection_defaults_empty "IAD" "SFO" "2026-01-01" "2026-01-08" "bob@example.com"
      200 "ok" (.ofList [("other_flights", .arr (.ofList [sampleItin2]))]) "best_flights"
      (Or.inl rfl) rfl (.ok sampleMistralResp) (.ok ())⟩

/-- An itinerary whose single leg has none of the summary columns: the
flattened frame then lacks the requested columns and `to_string` raises. -/
def noColItin : Json := .obj (.ofList
  [("flights", .arr (.ofList [.obj (.ofList [("foo", .num 1)])])),
   ("price", .num 10)])

/-- **C9**: for some inputs `search_flights` propagates an uncaught
exception instead of returning an error string: (a) a 200 flight response
whose body is not valid JSON; (b) flattened rows lacking one of the
expected summary columns; (c) a 200 model response without the
`choices[0].message.content` structure; (d) a transport-level failure
(e.g. timeout) of the flight request itself. -/
theorem uncaught_exceptions_propagate :
    search_flights "IAD" "SFO" "2026-01-01" "2026-01-08" "bob@example.com"
        (.ok { status_code := 200, text := "<html>error page</html>", jsonBody := none })
        (.ok sampleMistralResp) (.ok ())
      = .error "requests.exceptions.JSONDecodeError"
    ∧ search_flights "IAD" "SFO" "2026-01-01" "2026-01-08" "bob@example.com"
        (.ok { status_code := 200, text := "ok",
               jsonBody := some (.obj (.cons "best_flights" (.arr (.cons noColItin .nil)) .nil)) })
        (.ok sampleMistralResp) (.ok ())
      = .error "KeyError: columns not in frame"
    ∧ search_flights "IAD" "SFO" "2026-01-01" "2026-01-08" "bob@example.com"
        (.ok sampleSerpResp)
        (.ok { status_code := 200, text := "ok", jsonBody := some (.obj .nil) }) (.ok ())
      = .error "KeyError: choices"
    ∧ search_flights "IAD" "SFO" "2026-01-01" "2026-01-08" "bob@example.com"
        (.error "requests.exceptions.Timeout") (.ok sampleMistralResp) (.ok ())
      = .error "requests.exceptions.Timeout" :=
  ⟨rfl, rfl, rfl, rfl⟩

/-- **C10**: for identical inputs and identical flight-API and model
responses, the flight-summary and recommendation outputs are the same
whatever the SMTP oracle does (credentials and transaction outcome
included): only the email-status output can differ between two runs. -/
theorem smtp_noninterference
    (origin destination outbound_date return_date user_email : String)
    (serp mistral : Except String HttpResponse)
    (smtpA smtpB : Except String Unit) :
    (search_flights origin destination outbound_date return_date user_email
        serp mistral smtpA).map (fun out => (out.1, out.2.1))
      = (search_flights origin destination outbound_date return_date user_email
          serp mistral smtpB).map (fun out => (out.1, out.2.1)) := by
  rw [search_flights_eq, search_flights_eq]
  cases hl : flightLookup serp with
  | error e => rfl
  | ok lo =>
    cases lo with
    | earlyExit m => rfl
    | summary s =>
      cases hm : mistralRecommendation mistral with
      | error e => rfl
      | ok r => rfl
